import Mathlib

/-!
# Verification of the Fluent Bit output-section compiler

Shallow embedding of `internal/fluentbit/config/builder/output.go` from the
telemetry-manager repository, together with models of its helper types and
functions (the v1alpha1 API types, the output-section builder, the multiline
parser and the env-var name formatter), which are declared outside the
visible source and are therefore modelled from the specification.

Strings are compared byte-wise exactly as Go compares them; since UTF-8
preserves code-point order, the comparison is embedded as a code-point-wise
comparison of the character lists underlying Lean strings.
-/

namespace TelemetryManager

/-- Go's byte-wise lexicographic comparison of strings, embedded on the
character lists of Lean strings (UTF-8 byte order coincides with code-point
order). Returns true when the first list is strictly smaller. -/
def charListLt : List Char → List Char → Bool
  | _, [] => false
  | [], _ :: _ => true
  | a :: as, b :: bs =>
    if a.toNat < b.toNat then true
    else if b.toNat < a.toNat then false
    else charListLt as bs

/-- The non-strict ascending order used by Go's sort.Strings: a precedes b
when b is not strictly smaller than a. -/
def sortLe (a b : String) : Prop := charListLt b.data a.data = false

instance : DecidableRel sortLe :=
  fun a b => inferInstanceAs (Decidable (charListLt b.data a.data = false))

/-- Lower-casing of a string, character by character (model of Go's
case-insensitive key comparison via strings.EqualFold / ToLower). -/
def toLowerStr (s : String) : String := ⟨s.data.map Char.toLower⟩

/-- Upper-casing of a string, character by character. -/
def toUpperStr (s : String) : String := ⟨s.data.map Char.toUpper⟩

/-- Whitespace trimming on a character list: leading and trailing whitespace
characters are removed (model of Go's strings.TrimSpace). -/
def trimChars (cs : List Char) : List Char :=
  ((cs.dropWhile Char.isWhitespace).reverse.dropWhile Char.isWhitespace).reverse

/-- Whitespace trimming on strings. -/
def trimStr (s : String) : String := ⟨trimChars s.data⟩

/-- Splitting a character list into lines at newline characters (model of Go's
strings.Split on a newline separator). -/
def splitLines : List Char → List (List Char)
  | [] => [[]]
  | c :: rest =>
    match splitLines rest with
    | [] => [[]]
    | l :: ls => if c = '\n' then [] :: l :: ls else (c :: l) :: ls

/-- Modelled from the spec: a secret-key reference identifying a secret's
namespace, name, and key (§4.1). The Go type SecretKeyRef is not part of the
visible source. -/
structure SecretKeyRef where
  name : String
  «namespace» : String
  key : String
deriving DecidableEq, Repr

/-- Modelled from the spec: the indirection wrapper around a secret-key
reference (ValueFromSource, not in the visible source). -/
structure ValueFromSource where
  secretKeyRef : Option SecretKeyRef
deriving DecidableEq, Repr

/-- Modelled from the spec: ValueFromSource.IsSecretKeyRef — true when a
secret-key reference is present. -/
def ValueFromSource.IsSecretKeyRef (v : ValueFromSource) : Bool :=
  v.secretKeyRef.isSome

/-- Modelled from the spec: a ValueType is either a literal string or an
indirect secret reference (§3). The Go type is not in the visible source; a
nil pointer becomes none. -/
structure ValueType where
  value : String := ""
  valueFrom : Option ValueFromSource := none
deriving DecidableEq, Repr

/-- Modelled from the spec: ValueType.IsDefined — the value carries either a
non-empty literal or an indirect reference (§3; §4.5 emits host, user and
password "only when defined"). -/
def ValueType.IsDefined (v : ValueType) : Bool :=
  v.value ≠ "" || v.valueFrom.isSome

/-- Modelled from the spec: the TLS configuration of an HTTP sink (§3): a
disabled flag, a skip-validation flag, and optional CA/cert/key material
whose presence drives path emission. -/
structure TLSConfig where
  disabled : Bool := false
  skipCertificateValidation : Bool := false
  ca : ValueType := {}
  cert : ValueType := {}
  key : ValueType := {}
deriving DecidableEq, Repr

/-- Modelled from the spec: HTTPOutput (§3): URI, compression mode, port,
payload format, host/user/password as ValueType, and a TLS configuration. -/
structure HTTPOutput where
  host : ValueType := {}
  user : ValueType := {}
  password : ValueType := {}
  uri : String := ""
  compress : String := ""
  port : String := ""
  format : String := ""
  tlsConfig : TLSConfig := {}
deriving DecidableEq, Repr

/-- Modelled from the spec: LokiOutput (§3): URL (ValueType), an unordered
label mapping, and a list of keys to remove. The Go map is embedded as an
association list whose list order stands for the map's iteration order. -/
structure LokiOutput where
  url : ValueType := {}
  labels : List (String × String) := []
  removeKeys : List String := []
deriving DecidableEq, Repr

/-- Modelled from the spec: Output — the sink variants of a pipeline, of
which at most one is populated (§3); Go nil pointers become none. -/
structure Output where
  custom : String := ""
  http : Option HTTPOutput := none
  loki : Option LokiOutput := none
deriving DecidableEq, Repr

/-- Modelled from the spec: the *is-custom-defined* predicate (§3): the
free-form custom text is populated. -/
def Output.IsCustomDefined (o : Output) : Bool :=
  o.custom ≠ ""

/-- Modelled from the spec: the *is-http-defined* predicate (§3): the HTTP
sink variant is populated. -/
def Output.IsHTTPDefined (o : Output) : Bool :=
  o.http.isSome

/-- Modelled from the spec: the *is-loki-defined* predicate (§3): the Loki
sink variant is populated. -/
def Output.IsLokiDefined (o : Output) : Bool :=
  o.loki.isSome

/-- Modelled from the spec: the pipeline specification holding the output
sink (§3). -/
structure LogPipelineSpec where
  output : Output := {}
deriving DecidableEq, Repr

/-- Modelled from the spec: a LogPipeline object — a unique name plus its
spec (§3). -/
structure LogPipeline where
  name : String := ""
  spec : LogPipelineSpec := {}
deriving DecidableEq, Repr

/-- Modelled from the spec: PipelineDefaults — externally supplied tuning
values; only the filesystem buffer ceiling is consumed by the output
compiler (§3). -/
structure PipelineDefaults where
  fsBufferLimit : String := ""
deriving DecidableEq, Repr

/-- Modelled from the spec: an ordered (key, value) configuration pair; keys
are stored verbatim (§3). -/
structure ConfigParam where
  key : String
  value : String
deriving DecidableEq, Repr

/-- An ordered list of configuration pairs. -/
abbrev ConfigParams := List ConfigParam

/-- Modelled from the spec: GetByKey — case-insensitive lookup over pairs
(§3, §4.2), returning the first pair whose key matches. -/
def ConfigParams.GetByKey (ps : ConfigParams) (k : String) : Option ConfigParam :=
  ps.find? (fun p => toLowerStr p.key == toLowerStr k)

/-- Modelled from the spec: ContainsKey — case-insensitive key membership
(§3, §4.2). -/
def ConfigParams.ContainsKey (ps : ConfigParams) (k : String) : Bool :=
  (ps.GetByKey k).isSome

/-- Modelled from the spec: the Parameter List Builder (§4.2) — an ordered,
append-only accumulator of configuration pairs. -/
structure OutputSectionBuilder where
  params : ConfigParams := []
deriving DecidableEq, Repr

/-- Modelled from the spec: Add — unconditionally appends; duplicate keys
are permitted (§4.2). The source calls it AddConfigParam. -/
def OutputSectionBuilder.AddConfigParam (sb : OutputSectionBuilder) (key value : String) :
    OutputSectionBuilder :=
  { sb with params := sb.params ++ [⟨key, value⟩] }

/-- Modelled from the spec: AddIfNotEmpty — appends only when the value is
non-empty after trimming (§4.2). -/
def OutputSectionBuilder.AddIfNotEmpty (sb : OutputSectionBuilder) (key value : String) :
    OutputSectionBuilder :=
  if trimStr value ≠ "" then sb.AddConfigParam key value else sb

/-- Modelled from the spec: AddIfNotEmptyOrDefault — appends the value if
non-empty, else appends the default; the default is always emitted (§4.2). -/
def OutputSectionBuilder.AddIfNotEmptyOrDefault (sb : OutputSectionBuilder)
    (key value dflt : String) : OutputSectionBuilder :=
  if value ≠ "" then sb.AddConfigParam key value else sb.AddConfigParam key dflt

/-- Modelled from the spec: Build — renders the section as a marker-delimited
text block, one four-space-indented line per pair, preserving insertion
order, with no deduplication and no re-sorting (§4.2, §6). -/
def OutputSectionBuilder.Build (sb : OutputSectionBuilder) : String :=
  "[OUTPUT]\n"
    ++ String.join (sb.params.map (fun p => "    " ++ p.key ++ "  " ++ p.value ++ "\n"))

/-- Modelled from the spec: the Custom-Output Parser (§4.3, §7) — each
non-blank line of the raw text is a whitespace-separated key/value pair;
blank lines and malformed lines (no value part) are silently skipped. -/
def parseLine (line : List Char) : Option ConfigParam :=
  let trimmed := trimChars line
  if trimmed = [] then none
  else
    let k := trimmed.takeWhile (fun c => !c.isWhitespace)
    let rest := trimChars (trimmed.drop k.length)
    if rest = [] then none
    else some ⟨⟨k⟩, ⟨rest⟩⟩

/-- Modelled from the spec: parseMultiline — parses the user-supplied
multiline "key value" block into an ordered list of pairs preserving source
line order (§4.3). -/
def parseMultiline (customText : String) : ConfigParams :=
  (splitLines customText.data).filterMap parseLine

/-- Modelled from the spec: envvar.FormatEnvVarName — a pure, deterministic
function of (pipeline name, secret namespace, secret name, secret key)
(§4.1); the exact formula lives outside the visible source, so it is
modelled as the canonical underscore-joined upper-cased form. -/
def FormatEnvVarName (pipeline ns name key : String) : String :=
  toUpperStr (String.intercalate "_" [pipeline, ns, name, key])

/-- The fixed retry ceiling from `output.go`: chosen so that Fluent Bit's
exponential back-off with jitter covers about three days of retrying. -/
def retryLimit : String := "300"

/-- `resolveValue` from `output.go`: a non-empty literal wins; otherwise a
secret-key reference yields the placeholder token; otherwise the empty
string. -/
def resolveValue (value : ValueType) (logPipeline : String) : String :=
  if value.value ≠ "" then
    value.value
  else
    match value.valueFrom with
    | some vf =>
      if vf.IsSecretKeyRef then
        match vf.secretKeyRef with
        | some secretKeyRef =>
          "$\x7b" ++ FormatEnvVarName logPipeline secretKeyRef.«namespace»
            secretKeyRef.name secretKeyRef.key ++ "\x7d"
        | none => ""
      else ""
    | none => ""

/-- `concatenateLabels` from `output.go`: format every map entry as
key="value", sort the formatted strings ascending byte-wise (sort.Strings),
join with ", " and wrap in braces. The input list order models the Go map's
iteration order. -/
def concatenateLabels (labels : List (String × String)) : String :=
  let labelsSlice := labels.map (fun kv => kv.1 ++ "=\"" ++ kv.2 ++ "\"")
  "\x7b" ++ String.intercalate ", " (List.insertionSort sortLe labelsSlice) ++ "\x7d"

/-- `generateCustomOutput` from `output.go`, up to rendering: parse the
custom text, append every parsed pair in order, synthesize an alias when
none is present, then append the operator-owned match, buffer-limit and
retry-limit pairs. -/
def generateCustomOutputBuilder (output : Output) (fsBufferLimit name : String) :
    OutputSectionBuilder :=
  let customOutputParams := parseMultiline output.custom
  let outputName :=
    match customOutputParams.GetByKey "name" with
    | some p => p.value
    | none => ""
  let aliasPresent := customOutputParams.ContainsKey "alias"
  let sb := customOutputParams.foldl
    (fun sb p => sb.AddConfigParam p.key p.value) ({} : OutputSectionBuilder)
  let sb := if aliasPresent then sb else sb.AddConfigParam "alias" (name ++ "-" ++ outputName)
  let sb := sb.AddConfigParam "match" (name ++ ".*")
  let sb := sb.AddConfigParam "storage.total_limit_size" fsBufferLimit
  sb.AddConfigParam "retry_limit" retryLimit

/-- `generateCustomOutput` from `output.go`: the rendered custom section. -/
def generateCustomOutput (output : Output) (fsBufferLimit name : String) : String :=
  (generateCustomOutputBuilder output fsBufferLimit name).Build

/-- `generateHTTPOutput` from `output.go`, up to rendering: the fixed header
pairs, the conditional URI/compression, the defaulted port/format, the
resolved host/password/user, the unconditional tls and tls.verify pairs,
and the conditional TLS material paths. -/
def generateHTTPOutputBuilder (httpOutput : HTTPOutput) (fsBufferLimit name : String) :
    OutputSectionBuilder :=
  let sb : OutputSectionBuilder := {}
  let sb := sb.AddConfigParam "name" "http"
  let sb := sb.AddConfigParam "allow_duplicated_headers" "true"
  let sb := sb.AddConfigParam "match" (name ++ ".*")
  let sb := sb.AddConfigParam "alias" (name ++ "-http")
  let sb := sb.AddConfigParam "storage.total_limit_size" fsBufferLimit
  let sb := sb.AddConfigParam "retry_limit" retryLimit
  let sb := sb.AddIfNotEmpty "uri" httpOutput.uri
  let sb := sb.AddIfNotEmpty "compress" httpOutput.compress
  let sb := sb.AddIfNotEmptyOrDefault "port" httpOutput.port "443"
  let sb := sb.AddIfNotEmptyOrDefault "format" httpOutput.format "json"
  let sb :=
    if httpOutput.host.IsDefined then
      sb.AddConfigParam "host" (resolveValue httpOutput.host name)
    else sb
  let sb :=
    if httpOutput.password.IsDefined then
      sb.AddConfigParam "http_passwd" (resolveValue httpOutput.password name)
    else sb
  let sb :=
    if httpOutput.user.IsDefined then
      sb.AddConfigParam "http_user" (resolveValue httpOutput.user name)
    else sb
  let tlsEnabled := if httpOutput.tlsConfig.disabled then "off" else "on"
  let sb := sb.AddConfigParam "tls" tlsEnabled
  let tlsVerify := if httpOutput.tlsConfig.skipCertificateValidation then "off" else "on"
  let sb := sb.AddConfigParam "tls.verify" tlsVerify
  let sb :=
    if httpOutput.tlsConfig.ca.IsDefined then
      sb.AddConfigParam "tls.ca_file" ("/fluent-bit/tls/" ++ name ++ "-ca.crt")
    else sb
  let sb :=
    if httpOutput.tlsConfig.cert.IsDefined then
      sb.AddConfigParam "tls.crt_file" ("/fluent-bit/tls/" ++ name ++ "-cert.crt")
    else sb
  let sb :=
    if httpOutput.tlsConfig.key.IsDefined then
      sb.AddConfigParam "tls.key_file" ("/fluent-bit/tls/" ++ name ++ "-key.key")
    else sb
  sb

/-- `generateHTTPOutput` from `output.go`: the rendered HTTP section. -/
def generateHTTPOutput (httpOutput : HTTPOutput) (fsBufferLimit name : String) : String :=
  (generateHTTPOutputBuilder httpOutput fsBufferLimit name).Build

/-- `generateLokiOutput` from `output.go`, up to rendering: the fixed
label-map path, log-level and line-format pairs, the match pattern, the
buffer limit, the sink name and alias, the resolved URL, and the
conditional labels / removeKeys pairs. -/
def generateLokiOutputBuilder (lokiOutput : LokiOutput) (fsBufferLimit name : String) :
    OutputSectionBuilder :=
  let sb : OutputSectionBuilder := {}
  let sb := sb.AddConfigParam "labelMapPath" "/fluent-bit/etc/loki-labelmap.json"
  let sb := sb.AddConfigParam "loglevel" "warn"
  let sb := sb.AddConfigParam "lineformat" "json"
  let sb := sb.AddConfigParam "match" (name ++ ".*")
  let sb := sb.AddConfigParam "storage.total_limit_size" fsBufferLimit
  let sb := sb.AddConfigParam "name" "grafana-loki"
  let sb := sb.AddConfigParam "alias" (name ++ "-grafana-loki")
  let sb := sb.AddConfigParam "url" (resolveValue lokiOutput.url name)
  let sb :=
    if lokiOutput.labels.length ≠ 0 then
      sb.AddConfigParam "labels" (concatenateLabels lokiOutput.labels)
    else sb
  let sb :=
    if lokiOutput.removeKeys.length ≠ 0 then
      sb.AddConfigParam "removeKeys" (String.intercalate ", " lokiOutput.removeKeys)
    else sb
  sb

/-- `generateLokiOutput` from `output.go`: the rendered Loki section. -/
def generateLokiOutput (lokiOutput : LokiOutput) (fsBufferLimit name : String) : String :=
  (generateLokiOutputBuilder lokiOutput fsBufferLimit name).Build

/-- `createOutputSection` from `output.go`: evaluate the sink predicates in
priority order custom, HTTP, Loki, and run the matching assembler; return
the empty string when none matches. -/
def createOutputSection (pipeline : LogPipeline) (defaults : PipelineDefaults) : String :=
  let output := pipeline.spec.output
  if output.IsCustomDefined then
    generateCustomOutput output defaults.fsBufferLimit pipeline.name
  else if output.IsHTTPDefined then
    match output.http with
    | some httpOutput => generateHTTPOutput httpOutput defaults.fsBufferLimit pipeline.name
    | none => ""
  else if output.IsLokiDefined then
    match output.loki with
    | some lokiOutput => generateLokiOutput lokiOutput defaults.fsBufferLimit pipeline.name
    | none => ""
  else ""

/-- Modelled from the spec: the Label Formatter as the specification words
it — "sort entries by key ascending (byte-wise), format each as
key="value", join with ', ', and wrap in braces" (§4.6). Kept separate
from the source-derived `concatenateLabels` for comparison. -/
def sortLeByKey (a b : String × String) : Prop := charListLt b.1.data a.1.data = false

instance : DecidableRel sortLeByKey :=
  fun a b => inferInstanceAs (Decidable (charListLt b.1.data a.1.data = false))

/-- Modelled from the spec: the by-key-sorted Label Formatter (§4.6's
wording); compare with the source-derived `concatenateLabels`. -/
def concatenateLabelsByKey (labels : List (String × String)) : String :=
  "\x7b"
    ++ String.intercalate ", "
      ((List.insertionSort sortLeByKey labels).map (fun kv => kv.1 ++ "=\"" ++ kv.2 ++ "\""))
    ++ "\x7d"

/-- Modelled from the spec, as amended for claim C8: the Label Formatter
formats each entry as key="value", sorts the formatted strings ascending
byte-wise, joins with ", " and wraps in braces. Kept separate from the
source-derived `concatenateLabels` for comparison. -/
def labelFormatterAmendedSpec (labels : List (String × String)) : String :=
  let formatted := labels.map (fun kv => kv.1 ++ "=\"" ++ kv.2 ++ "\"")
  "\x7b" ++ String.intercalate ", " (List.insertionSort sortLe formatted) ++ "\x7d"

/-! ## Order properties of the byte-wise comparison -/

theorem char_eq_of_toNat_eq {a b : Char} (h : a.toNat = b.toNat) : a = b :=
  Char.eq_of_val_eq (UInt32.eq_of_toBitVec_eq (BitVec.eq_of_toNat_eq h))

theorem charListLt_asymm : ∀ (as bs : List Char),
    charListLt as bs = true → charListLt bs as = false
  | _, [], h => by simp [charListLt] at h
  | [], _ :: _, _ => rfl
  | a :: as, b :: bs, h => by
    simp only [charListLt] at h ⊢
    by_cases h1 : a.toNat < b.toNat
    · have h2 : ¬ b.toNat < a.toNat := by omega
      simp [h1, h2]
    · by_cases h2 : b.toNat < a.toNat
      · simp [h1, h2] at h
      · simpa [h1, h2] using charListLt_asymm as bs (by simpa [h1, h2] using h)

theorem eq_of_charListLt_false : ∀ (as bs : List Char),
    charListLt as bs = false → charListLt bs as = false → as = bs
  | [], [], _, _ => rfl
  | [], _ :: _, h, _ => by simp [charListLt] at h
  | _ :: _, [], _, h' => by simp [charListLt] at h'
  | a :: as, b :: bs, h, h' => by
    simp only [charListLt] at h h'
    by_cases h1 : a.toNat < b.toNat
    · simp [h1] at h
    · by_cases h2 : b.toNat < a.toNat
      · simp [h1, h2] at h'
      · have hab : a = b := char_eq_of_toNat_eq (by omega)
        have htl : as = bs :=
          eq_of_charListLt_false as bs (by simpa [h1, h2] using h)
            (by simpa [h1, h2] using h')
        rw [hab, htl]

theorem charListLt_trans : ∀ (as bs cs : List Char),
    charListLt as bs = true → charListLt bs cs = true → charListLt as cs = true
  | _, bs, [], _, h2 => by simp [charListLt] at h2
  | as, [], _ :: _, h1, _ => by simp [charListLt] at h1
  | [], _ :: _, _ :: _, _, _ => rfl
  | a :: as, b :: bs, c :: cs, h1, h2 => by
    simp only [charListLt] at h1 h2 ⊢
    by_cases hab : a.toNat < b.toNat
    · by_cases hbc : b.toNat < c.toNat
      · simp [show a.toNat < c.toNat by omega]
      · by_cases hcb : c.toNat < b.toNat
        · simp [hbc, hcb] at h2
        · simp [show a.toNat < c.toNat by omega]
    · by_cases hba : b.toNat < a.toNat
      · simp [hab, hba] at h1
      · by_cases hbc : b.toNat < c.toNat
        · simp [show a.toNat < c.toNat by omega]
        · by_cases hcb : c.toNat < b.toNat
          · simp [hbc, hcb] at h2
          · have h1' : charListLt as bs = true := by simpa [hab, hba] using h1
            have h2' : charListLt bs cs = true := by simpa [hbc, hcb] using h2
            have hac : ¬ a.toNat < c.toNat := by omega
            have hca : ¬ c.toNat < a.toNat := by omega
            simpa [hac, hca] using charListLt_trans as bs cs h1' h2'

instance : IsTotal String sortLe :=
  ⟨fun a b => by
    unfold sortLe
    cases h : charListLt b.data a.data
    · exact Or.inl rfl
    · exact Or.inr (charListLt_asymm _ _ h)⟩

instance : IsTrans String sortLe :=
  ⟨fun a b c h1 h2 => by
    unfold sortLe at h1 h2 ⊢
    cases h : charListLt c.data a.data
    · rfl
    · exfalso
      cases h4 : charListLt a.data b.data
      · have hab : a.data = b.data := eq_of_charListLt_false _ _ h4 h1
        rw [hab] at h
        simp [h2] at h
      · have := charListLt_trans _ _ _ h h4
        simp [h2] at this⟩

instance : IsAntisymm String sortLe :=
  ⟨fun a b h1 h2 => by
    have hd : a.data = b.data := eq_of_charListLt_false _ _ h2 h1
    obtain ⟨da⟩ := a
    obtain ⟨db⟩ := b
    exact congrArg String.mk hd⟩

/-! ## Rendering normal forms of the builders -/

@[simp] theorem AddConfigParam_params (sb : OutputSectionBuilder) (k v : String) :
    (sb.AddConfigParam k v).params = sb.params ++ [⟨k, v⟩] := rfl

@[simp] theorem AddIfNotEmpty_params (sb : OutputSectionBuilder) (k v : String) :
    (sb.AddIfNotEmpty k v).params
      = sb.params ++ (if trimStr v ≠ "" then [⟨k, v⟩] else []) := by
  unfold OutputSectionBuilder.AddIfNotEmpty
  split <;> simp [OutputSectionBuilder.AddConfigParam]

@[simp] theorem AddIfNotEmptyOrDefault_params (sb : OutputSectionBuilder) (k v d : String) :
    (sb.AddIfNotEmptyOrDefault k v d).params
      = sb.params ++ [⟨k, if v ≠ "" then v else d⟩] := by
  unfold OutputSectionBuilder.AddIfNotEmptyOrDefault
  split <;> simp [OutputSectionBuilder.AddConfigParam]

@[simp] theorem ite_AddConfigParam_params (c : Prop) [Decidable c]
    (sb : OutputSectionBuilder) (k v : String) :
    (if c then sb.AddConfigParam k v else sb).params
      = sb.params ++ (if c then [⟨k, v⟩] else []) := by
  split <;> simp [OutputSectionBuilder.AddConfigParam]

@[simp] theorem ite_skip_AddConfigParam_params (c : Prop) [Decidable c]
    (sb : OutputSectionBuilder) (k v : String) :
    (if c then sb else sb.AddConfigParam k v).params
      = sb.params ++ (if c then [] else [⟨k, v⟩]) := by
  split <;> simp [OutputSectionBuilder.AddConfigParam]

theorem foldl_AddConfigParam_params (ps : ConfigParams) (sb : OutputSectionBuilder) :
    (ps.foldl (fun sb p => sb.AddConfigParam p.key p.value) sb).params
      = sb.params ++ ps := by
  induction ps generalizing sb with
  | nil => simp
  | cons p ps ih =>
    rw [List.foldl_cons, ih]
    show sb.params ++ [p] ++ ps = sb.params ++ p :: ps
    simp

/-- The flattened parameter list of the HTTP assembler. -/
theorem generateHTTPOutputBuilder_params (h : HTTPOutput) (fs name : String) :
    (generateHTTPOutputBuilder h fs name).params
      = [⟨"name", "http"⟩, ⟨"allow_duplicated_headers", "true"⟩,
          ⟨"match", name ++ ".*"⟩, ⟨"alias", name ++ "-http"⟩,
          ⟨"storage.total_limit_size", fs⟩, ⟨"retry_limit", retryLimit⟩]
        ++ (if trimStr h.uri ≠ "" then [⟨"uri", h.uri⟩] else [])
        ++ (if trimStr h.compress ≠ "" then [⟨"compress", h.compress⟩] else [])
        ++ [⟨"port", if h.port ≠ "" then h.port else "443"⟩]
        ++ [⟨"format", if h.format ≠ "" then h.format else "json"⟩]
        ++ (if h.host.IsDefined then [⟨"host", resolveValue h.host name⟩] else [])
        ++ (if h.password.IsDefined then [⟨"http_passwd", resolveValue h.password name⟩] else [])
        ++ (if h.user.IsDefined then [⟨"http_user", resolveValue h.user name⟩] else [])
        ++ [⟨"tls", if h.tlsConfig.disabled then "off" else "on"⟩,
            ⟨"tls.verify", if h.tlsConfig.skipCertificateValidation then "off" else "on"⟩]
        ++ (if h.tlsConfig.ca.IsDefined then
              [⟨"tls.ca_file", "/fluent-bit/tls/" ++ name ++ "-ca.crt"⟩] else [])
        ++ (if h.tlsConfig.cert.IsDefined then
              [⟨"tls.crt_file", "/fluent-bit/tls/" ++ name ++ "-cert.crt"⟩] else [])
        ++ (if h.tlsConfig.key.IsDefined then
              [⟨"tls.key_file", "/fluent-bit/tls/" ++ name ++ "-key.key"⟩] else []) := by
  simp [generateHTTPOutputBuilder]

/-- The flattened parameter list of the custom assembler. -/
theorem generateCustomOutputBuilder_params (o : Output) (fs name : String) :
    (generateCustomOutputBuilder o fs name).params
      = parseMultiline o.custom
        ++ (if (parseMultiline o.custom).ContainsKey "alias" = true then []
            else [⟨"alias", name ++ "-"
              ++ (match (parseMultiline o.custom).GetByKey "name" with
                  | some p => p.value
                  | none => "")⟩])
        ++ [⟨"match", name ++ ".*"⟩, ⟨"storage.total_limit_size", fs⟩,
            ⟨"retry_limit", retryLimit⟩] := by
  simp [generateCustomOutputBuilder, foldl_AddConfigParam_params]

/-- The flattened parameter list of the Loki assembler. -/
theorem generateLokiOutputBuilder_params (l : LokiOutput) (fs name : String) :
    (generateLokiOutputBuilder l fs name).params
      = [⟨"labelMapPath", "/fluent-bit/etc/loki-labelmap.json"⟩,
          ⟨"loglevel", "warn"⟩, ⟨"lineformat", "json"⟩, ⟨"match", name ++ ".*"⟩,
          ⟨"storage.total_limit_size", fs⟩, ⟨"name", "grafana-loki"⟩,
          ⟨"alias", name ++ "-grafana-loki"⟩, ⟨"url", resolveValue l.url name⟩]
        ++ (if l.labels.length ≠ 0 then [⟨"labels", concatenateLabels l.labels⟩] else [])
        ++ (if l.removeKeys.length ≠ 0 then
              [⟨"removeKeys", String.intercalate ", " l.removeKeys⟩] else []) := by
  simp [generateLokiOutputBuilder]

/-! ## Counting helpers -/

theorem countP_ite (c : Prop) [Decidable c] (p : ConfigParam → Bool) (l : ConfigParams) :
    List.countP p (if c then l else []) = if c then List.countP p l else 0 := by
  split <;> simp

theorem countP_ite_skip (c : Prop) [Decidable c] (p : ConfigParam → Bool) (l : ConfigParams) :
    List.countP p (if c then [] else l) = if c then 0 else List.countP p l := by
  split <;> simp

theorem countP_eq_zero_of_not_containsKey (ps : ConfigParams) (k : String)
    (h : ps.ContainsKey k = false) :
    ps.countP (fun p => toLowerStr p.key == toLowerStr k) = 0 := by
  unfold ConfigParams.ContainsKey ConfigParams.GetByKey at h
  rw [List.countP_eq_zero]
  cases hf : List.find? (fun p => toLowerStr p.key == toLowerStr k) ps with
  | some p => rw [hf] at h; simp at h
  | none => exact List.find?_eq_none.mp hf

theorem toLower_match_ne_alias : (toLowerStr "match" == toLowerStr "alias") = false := by
  decide

theorem toLower_storage_ne_alias :
    (toLowerStr "storage.total_limit_size" == toLowerStr "alias") = false := by
  decide

theorem toLower_retry_ne_alias :
    (toLowerStr "retry_limit" == toLowerStr "alias") = false := by
  decide

theorem drop_length_sub_three (L : ConfigParams) (a b c : ConfigParam) :
    (L ++ [a, b, c]).drop ((L ++ [a, b, c]).length - 3) = [a, b, c] := by
  have h : (L ++ [a, b, c]).length - 3 = L.length := by simp
  rw [h]
  exact List.drop_left _ _

/-! ## The claims -/

/-- Claim C1, counterexample: the claim asserts that the Loki section also
carries a retry_limit parameter, but the Loki assembler emits none: at a
concrete Loki sink, no parameter of the rendered section has the key
retry_limit. -/
theorem claim_C1_counterexample :
    ((generateLokiOutputBuilder { url := { value := "http://loki:3100" } } "1G" "p").params.countP
      (fun p => p.key == "retry_limit")) = 0 := by
  decide

/-- Claim C1 (amended): the Custom and HTTP sections contain a retry_limit
parameter valued at the fixed policy constant "300" and a
storage.total_limit_size parameter valued at the supplied buffer ceiling;
the Loki section contains the storage.total_limit_size parameter but no
retry_limit parameter at all. -/
theorem claim_C1 (o : Output) (h : HTTPOutput) (l : LokiOutput) (fs name : String) :
    retryLimit = "300"
    ∧ (⟨"retry_limit", "300"⟩ : ConfigParam) ∈ (generateCustomOutputBuilder o fs name).params
    ∧ (⟨"storage.total_limit_size", fs⟩ : ConfigParam)
        ∈ (generateCustomOutputBuilder o fs name).params
    ∧ (⟨"retry_limit", "300"⟩ : ConfigParam) ∈ (generateHTTPOutputBuilder h fs name).params
    ∧ (⟨"storage.total_limit_size", fs⟩ : ConfigParam)
        ∈ (generateHTTPOutputBuilder h fs name).params
    ∧ (⟨"storage.total_limit_size", fs⟩ : ConfigParam)
        ∈ (generateLokiOutputBuilder l fs name).params
    ∧ ((generateLokiOutputBuilder l fs name).params.countP
        (fun p => p.key == "retry_limit")) = 0 := by
  refine ⟨rfl, ?_, ?_, ?_, ?_, ?_, ?_⟩
  · simp [generateCustomOutputBuilder_params, retryLimit]
  · simp [generateCustomOutputBuilder_params]
  · simp [generateHTTPOutputBuilder_params, retryLimit]
  · simp [generateHTTPOutputBuilder_params]
  · simp [generateLokiOutputBuilder_params]
  · rw [generateLokiOutputBuilder_params]
    simp [List.countP_append, List.countP_cons, countP_ite, countP_ite_skip]

/-- Claim C2: the dispatcher evaluates the predicates in the priority order
custom, then HTTP, then Loki, runs exactly the matching assembler, and
returns the empty string when no sink kind is populated. -/
theorem claim_C2 (pipeline : LogPipeline) (defaults : PipelineDefaults) :
    (pipeline.spec.output.IsCustomDefined = true →
      createOutputSection pipeline defaults
        = generateCustomOutput pipeline.spec.output defaults.fsBufferLimit pipeline.name)
    ∧ (∀ h, pipeline.spec.output.IsCustomDefined = false →
        pipeline.spec.output.http = some h →
        createOutputSection pipeline defaults
          = generateHTTPOutput h defaults.fsBufferLimit pipeline.name)
    ∧ (∀ l, pipeline.spec.output.IsCustomDefined = false →
        pipeline.spec.output.http = none →
        pipeline.spec.output.loki = some l →
        createOutputSection pipeline defaults
          = generateLokiOutput l defaults.fsBufferLimit pipeline.name)
    ∧ (pipeline.spec.output.IsCustomDefined = false →
        pipeline.spec.output.IsHTTPDefined = false →
        pipeline.spec.output.IsLokiDefined = false →
        createOutputSection pipeline defaults = "") := by
  refine ⟨?_, ?_, ?_, ?_⟩
  · intro h1
    simp [createOutputSection, h1]
  · intro hh h1 h2
    simp [createOutputSection, h1, h2, Output.IsHTTPDefined]
  · intro ll h1 h2 h3
    simp [createOutputSection, h1, h2, h3, Output.IsHTTPDefined, Output.IsLokiDefined]
  · intro h1 h2 h3
    simp [createOutputSection, h1, h2, h3]

/-- Claim C2, witness: a pipeline with no sink compiles to the empty string,
and a pipeline with custom text dispatches to the custom assembler. -/
theorem claim_C2_witness :
    createOutputSection { name := "p0" } { fsBufferLimit := "1G" } = ""
    ∧ createOutputSection
        { name := "p1", spec := { output := { custom := "Name  kafka" } } }
        { fsBufferLimit := "1G" }
      = generateCustomOutput { custom := "Name  kafka" } "1G" "p1" :=
  ⟨(claim_C2 _ _).2.2.2 (by decide) (by decide) (by decide),
   (claim_C2 _ _).1 (by decide)⟩

/-- Claim C3: the HTTP section carries the keys tls and tls.verify exactly
once each, valued "off"/"on" according to TLSConfig.Disabled and
TLSConfig.SkipCertificateValidation, unconditionally. -/
theorem claim_C3 (h : HTTPOutput) (fs name : String) :
    ((generateHTTPOutputBuilder h fs name).params.countP (fun p => p.key == "tls")) = 1
    ∧ ((generateHTTPOutputBuilder h fs name).params.countP
        (fun p => p.key == "tls.verify")) = 1
    ∧ (⟨"tls", if h.tlsConfig.disabled then "off" else "on"⟩ : ConfigParam)
        ∈ (generateHTTPOutputBuilder h fs name).params
    ∧ (⟨"tls.verify", if h.tlsConfig.skipCertificateValidation then "off" else "on"⟩ :
        ConfigParam) ∈ (generateHTTPOutputBuilder h fs name).params := by
  refine ⟨?_, ?_, ?_, ?_⟩
  · rw [generateHTTPOutputBuilder_params]
    simp [List.countP_append, List.countP_cons, countP_ite, countP_ite_skip]
  · rw [generateHTTPOutputBuilder_params]
    simp [List.countP_append, List.countP_cons, countP_ite, countP_ite_skip]
  · simp [generateHTTPOutputBuilder_params]
  · simp [generateHTTPOutputBuilder_params]

/-- Claim C4: resolveValue gives a non-empty literal precedence, renders a
secret-key reference as the deterministic placeholder token, and otherwise
returns the empty string. -/
theorem claim_C4 (v : ValueType) (p : String) :
    (v.value ≠ "" → resolveValue v p = v.value)
    ∧ (∀ r, v.value = "" → v.valueFrom = some ⟨some r⟩ →
        resolveValue v p
          = "$\x7b" ++ FormatEnvVarName p r.«namespace» r.name r.key ++ "\x7d")
    ∧ (v.value = "" → v.valueFrom.bind (fun vf => vf.secretKeyRef) = none →
        resolveValue v p = "") := by
  refine ⟨?_, ?_, ?_⟩
  · intro h
    simp [resolveValue, h]
  · intro r h1 h2
    simp [resolveValue, h1, h2, ValueFromSource.IsSecretKeyRef]
  · intro h1 h2
    cases hv : v.valueFrom with
    | none => simp [resolveValue, h1, hv]
    | some vf =>
      rw [hv] at h2
      simp only [Option.some_bind] at h2
      simp [resolveValue, h1, hv, ValueFromSource.IsSecretKeyRef, h2]

/-- Claim C4, witness: a concrete literal wins over a reference, a concrete
reference yields its placeholder, and a fully unset value resolves to the
empty string. -/
theorem claim_C4_witness :
    resolveValue { value := "lit", valueFrom := some ⟨some ⟨"sn", "ns", "sk"⟩⟩ } "p" = "lit"
    ∧ resolveValue { valueFrom := some ⟨some ⟨"sn", "ns", "sk"⟩⟩ } "p"
        = "$\x7bP_NS_SN_SK\x7d"
    ∧ resolveValue {} "p" = "" :=
  ⟨(claim_C4 _ _).1 (by decide),
   by
     rw [(claim_C4 { valueFrom := some ⟨some ⟨"sn", "ns", "sk"⟩⟩ } "p").2.1
       ⟨"sn", "ns", "sk"⟩ rfl rfl]
     decide,
   (claim_C4 {} "p").2.2 rfl rfl⟩

/-- Claim C5: when the parsed custom pairs lack an alias key, the assembler
appends exactly one synthesized alias pair right after all parsed pairs,
valued pipelineName-nameValue (empty nameValue when no name key exists). -/
theorem claim_C5 (o : Output) (fs name : String)
    (hno : (parseMultiline o.custom).ContainsKey "alias" = false) :
    (generateCustomOutputBuilder o fs name).params
      = parseMultiline o.custom
        ++ [⟨"alias", name ++ "-"
              ++ (match (parseMultiline o.custom).GetByKey "name" with
                  | some p => p.value
                  | none => "")⟩,
            ⟨"match", name ++ ".*"⟩, ⟨"storage.total_limit_size", fs⟩,
            ⟨"retry_limit", retryLimit⟩]
    ∧ ((generateCustomOutputBuilder o fs name).params.countP
        (fun p => toLowerStr p.key == toLowerStr "alias")) = 1 := by
  have h0 : (parseMultiline o.custom).countP
      (fun p => toLowerStr p.key == toLowerStr "alias") = 0 :=
    countP_eq_zero_of_not_containsKey _ _ hno
  constructor
  · simp [generateCustomOutputBuilder_params, hno]
  · rw [generateCustomOutputBuilder_params]
    simp [hno, List.countP_append, List.countP_cons, h0,
      toLower_match_ne_alias, toLower_storage_ne_alias, toLower_retry_ne_alias]

/-- Claim C5, witness: the concrete custom text from scenario C, which has
no alias key, yields the synthesized alias p1-kafka after both parsed
pairs. -/
theorem claim_C5_witness :
    (parseMultiline "Name  kafka\nBrokers  broker:9092").ContainsKey "alias" = false
    ∧ (generateCustomOutputBuilder
        { custom := "Name  kafka\nBrokers  broker:9092" } "1G" "p1").params
      = [⟨"Name", "kafka"⟩, ⟨"Brokers", "broker:9092"⟩, ⟨"alias", "p1-kafka"⟩,
          ⟨"match", "p1.*"⟩, ⟨"storage.total_limit_size", "1G"⟩,
          ⟨"retry_limit", "300"⟩] :=
  ⟨by decide,
   ((claim_C5 { custom := "Name  kafka\nBrokers  broker:9092" } "1G" "p1"
      (by decide)).1).trans (by decide)⟩

/-- Claim C6: the operator-owned match, storage.total_limit_size and
retry_limit pairs are appended after all author-supplied pairs, with no
deduplication: each of those keys occurs exactly once more in the final
section than in the parsed author pairs. -/
theorem claim_C6 (o : Output) (fs name : String) :
    (generateCustomOutputBuilder o fs name).params.take (parseMultiline o.custom).length
        = parseMultiline o.custom
    ∧ (generateCustomOutputBuilder o fs name).params.drop
        ((generateCustomOutputBuilder o fs name).params.length - 3)
        = [⟨"match", name ++ ".*"⟩, ⟨"storage.total_limit_size", fs⟩,
            ⟨"retry_limit", retryLimit⟩]
    ∧ ((generateCustomOutputBuilder o fs name).params.countP (fun p => p.key == "match"))
        = (parseMultiline o.custom).countP (fun p => p.key == "match") + 1
    ∧ ((generateCustomOutputBuilder o fs name).params.countP
        (fun p => p.key == "storage.total_limit_size"))
        = (parseMultiline o.custom).countP (fun p => p.key == "storage.total_limit_size") + 1
    ∧ ((generateCustomOutputBuilder o fs name).params.countP
        (fun p => p.key == "retry_limit"))
        = (parseMultiline o.custom).countP (fun p => p.key == "retry_limit") + 1 := by
  refine ⟨?_, ?_, ?_, ?_, ?_⟩
  · rw [generateCustomOutputBuilder_params, List.append_assoc]
    exact List.take_left _ _
  · rw [generateCustomOutputBuilder_params]
    exact drop_length_sub_three _ _ _ _
  · rw [generateCustomOutputBuilder_params]
    simp [List.countP_append, List.countP_cons, countP_ite, countP_ite_skip]
  · rw [generateCustomOutputBuilder_params]
    simp [List.countP_append, List.countP_cons, countP_ite, countP_ite_skip]
  · rw [generateCustomOutputBuilder_params]
    simp [List.countP_append, List.countP_cons, countP_ite, countP_ite_skip]

/-- Claim C7: the HTTP assembler emits its parameters in the fixed order of
the source — six fixed header pairs, conditional URI and compression,
always-emitted defaulted port and format, conditionally resolved host,
password and user, unconditional tls pairs and conditional TLS material
paths — and scenario A holds at a concrete sink. -/
theorem claim_C7 (h : HTTPOutput) (fs name : String) :
    (generateHTTPOutputBuilder h fs name).params
      = [⟨"name", "http"⟩, ⟨"allow_duplicated_headers", "true"⟩,
          ⟨"match", name ++ ".*"⟩, ⟨"alias", name ++ "-http"⟩,
          ⟨"storage.total_limit_size", fs⟩, ⟨"retry_limit", retryLimit⟩]
        ++ (if trimStr h.uri ≠ "" then [⟨"uri", h.uri⟩] else [])
        ++ (if trimStr h.compress ≠ "" then [⟨"compress", h.compress⟩] else [])
        ++ [⟨"port", if h.port ≠ "" then h.port else "443"⟩]
        ++ [⟨"format", if h.format ≠ "" then h.format else "json"⟩]
        ++ (if h.host.IsDefined then [⟨"host", resolveValue h.host name⟩] else [])
        ++ (if h.password.IsDefined then [⟨"http_passwd", resolveValue h.password name⟩] else [])
        ++ (if h.user.IsDefined then [⟨"http_user", resolveValue h.user name⟩] else [])
        ++ [⟨"tls", if h.tlsConfig.disabled then "off" else "on"⟩,
            ⟨"tls.verify", if h.tlsConfig.skipCertificateValidation then "off" else "on"⟩]
        ++ (if h.tlsConfig.ca.IsDefined then
              [⟨"tls.ca_file", "/fluent-bit/tls/" ++ name ++ "-ca.crt"⟩] else [])
        ++ (if h.tlsConfig.cert.IsDefined then
              [⟨"tls.crt_file", "/fluent-bit/tls/" ++ name ++ "-cert.crt"⟩] else [])
        ++ (if h.tlsConfig.key.IsDefined then
              [⟨"tls.key_file", "/fluent-bit/tls/" ++ name ++ "-key.key"⟩] else [])
    ∧ (⟨"tls", "on"⟩ : ConfigParam)
        ∈ (generateHTTPOutputBuilder { uri := "https://example/logs" } "1G" "p").params
    ∧ (⟨"tls.verify", "on"⟩ : ConfigParam)
        ∈ (generateHTTPOutputBuilder { uri := "https://example/logs" } "1G" "p").params
    ∧ (⟨"port", "443"⟩ : ConfigParam)
        ∈ (generateHTTPOutputBuilder { uri := "https://example/logs" } "1G" "p").params
    ∧ (⟨"format", "json"⟩ : ConfigParam)
        ∈ (generateHTTPOutputBuilder { uri := "https://example/logs" } "1G" "p").params
    ∧ (⟨"uri", "https://example/logs"⟩ : ConfigParam)
        ∈ (generateHTTPOutputBuilder { uri := "https://example/logs" } "1G" "p").params :=
  ⟨generateHTTPOutputBuilder_params h fs name,
   by decide, by decide, by decide, by decide, by decide⟩

/-- Claim C8, counterexample: the Label Formatter sorts the formatted
key="value" strings, not the entries by key; on the mapping with keys "a"
and "a-b" the two orders differ, because the hyphen sorts before the
equals sign. -/
theorem claim_C8_counterexample :
    concatenateLabels [("a", "x"), ("a-b", "y")] = "\x7ba-b=\"y\", a=\"x\"\x7d"
    ∧ concatenateLabelsByKey [("a", "x"), ("a-b", "y")] = "\x7ba=\"x\", a-b=\"y\"\x7d"
    ∧ concatenateLabels [("a", "x"), ("a-b", "y")]
        ≠ concatenateLabelsByKey [("a", "x"), ("a-b", "y")] := by
  refine ⟨?_, ?_, ?_⟩ <;> decide

/-- Claim C8 (amended): the Label Formatter output equals the string
obtained by formatting each entry as key="value", sorting the formatted
strings ascending (byte-wise), joining with ", " and wrapping in braces;
on the mapping of scenario B this coincides with by-key sorting. -/
theorem claim_C8 (labels : List (String × String)) :
    concatenateLabels labels = labelFormatterAmendedSpec labels
    ∧ concatenateLabels [("app", "foo"), ("env", "prod")]
        = "\x7bapp=\"foo\", env=\"prod\"\x7d" :=
  ⟨rfl, by decide⟩

/-- Claim C9: the Label Formatter is invariant under permutation of the
input mapping's iteration order. -/
theorem claim_C9 (l1 l2 : List (String × String)) (h : l1.Perm l2) :
    concatenateLabels l1 = concatenateLabels l2 := by
  simp only [concatenateLabels]
  have hm : (l1.map (fun kv => kv.1 ++ "=\"" ++ kv.2 ++ "\"")).Perm
      (l2.map (fun kv => kv.1 ++ "=\"" ++ kv.2 ++ "\"")) :=
    h.map _
  have hp : (List.insertionSort sortLe
        (l1.map (fun kv => kv.1 ++ "=\"" ++ kv.2 ++ "\""))).Perm
      (List.insertionSort sortLe (l2.map (fun kv => kv.1 ++ "=\"" ++ kv.2 ++ "\""))) :=
    (List.perm_insertionSort _ _).trans (hm.trans (List.perm_insertionSort _ _).symm)
  rw [List.eq_of_perm_of_sorted hp (List.sorted_insertionSort _ _)
    (List.sorted_insertionSort _ _)]

/-- Claim C9, witness: swapping the two entries of a concrete mapping leaves
the formatted string unchanged. -/
theorem claim_C9_witness :
    concatenateLabels [("app", "foo"), ("env", "prod")]
      = concatenateLabels [("env", "prod"), ("app", "foo")] :=
  claim_C9 _ _ (by decide)

/-- Claim C10: the Loki section always contains a url parameter carrying the
resolved URL; with an empty literal and no secret reference the pair is
emitted with an empty value rather than omitted. -/
theorem claim_C10 (l : LokiOutput) (fs name : String) :
    (⟨"url", resolveValue l.url name⟩ : ConfigParam)
        ∈ (generateLokiOutputBuilder l fs name).params
    ∧ (l.url.value = "" → l.url.valueFrom = none →
        (⟨"url", ""⟩ : ConfigParam) ∈ (generateLokiOutputBuilder l fs name).params) := by
  constructor
  · simp [generateLokiOutputBuilder_params]
  · intro h1 h2
    have hres : resolveValue l.url name = "" := by simp [resolveValue, h1, h2]
    simp [generateLokiOutputBuilder_params, hres]

/-- Claim C10, witness: a Loki sink with a fully unset URL still gets a url
pair, with the empty value. -/
theorem claim_C10_witness :
    (⟨"url", ""⟩ : ConfigParam) ∈ (generateLokiOutputBuilder {} "1G" "p").params :=
  (claim_C10 {} "1G" "p").2 rfl rfl

end TelemetryManager
